import Mathlib

/-!
Verification of `blaze/constructors.py`: the array-construction dispatcher.

The source module defines the constructors `array`, `_fromiter`, `zeros`,
`ones` and `open` (here `openFromUri`, since `open` is a Lean keyword).
Scalar payloads are modelled as integers; the dispatcher never inspects
them.  Collaborator modules (`numpy`, the repository's `blz`, `datashape`,
`array` and `datadescriptor` modules, which are not part of the analysed
source) are modelled from the spec at their interface boundary.
-/

namespace Blaze

/-- Scalar element values carried by arrays and generators. -/
abbrev Val := Int

/-- Element-type tags (numpy dtypes).  A closed set of tags suffices:
the dispatcher only threads dtypes through, never inspects them. -/
inductive DType where
  | int64
  | float64
  | otherTag (code : Nat)
deriving DecidableEq, Repr

/-- Modelled from the spec: a shape/type descriptor produced by the
`datashape` collaborator (absent from the analysed source) — an ordered
sequence of dimension extents (`none` = unbound/streaming) plus an
element-type tag. -/
structure DShape where
  dims : List (Option Nat)
  elemType : DType
deriving DecidableEq, Repr

/-- Errors the constructors can produce, named after the spec's taxonomy.
`unboundLocal` models Python's UnboundLocalError raised by `Array(dd)`
when no capability branch assigned `dd`. -/
inductive Err where
  | parseError (msg : String)
  | unsupportedInputKind
  | missingShape
  | unboundDim
  | notImplemented
  | unboundLocal
deriving DecidableEq, Repr

/-- Modelled from the spec: `datashape.to_dtype` (absent from the analysed
source) projects a shape/type descriptor to its element-type tag. -/
def to_dtype (d : DShape) : DType := d.elemType

/-- Modelled from the spec: `datashape.to_numpy` (absent from the analysed
source) projects a descriptor into a `(concrete-shape, element-type)` pair,
failing when a dimension extent is unbound. -/
def to_numpy (d : DShape) : Except Err (List Nat × DType) :=
  match d.dims.mapM id with
  | some sh => .ok (sh, d.elemType)
  | none => .error .unboundDim

/-- A native in-memory (numpy) array: its flattened contents. -/
structure NDArray where
  data : List Val
deriving DecidableEq, Repr

/-- A compressed-chunked (blz) array: its decompressed contents. -/
structure BArray where
  data : List Val
deriving DecidableEq, Repr

namespace np

/-- Modelled from the spec: the native engine's construct-from-value
(`np.array`), materialising a scalar into a 0-dimensional array. -/
def array (v : Val) (dt : Option DType) : NDArray :=
  let _ := dt
  ⟨[v]⟩

/-- Modelled from the spec: the native engine's construct-from-iterator
(`np.fromiter`), materialising a one-shot producer into a growable
native buffer sized by consumption. -/
def fromiter (g : List Val) (dt : Option DType) : NDArray :=
  let _ := dt
  ⟨g⟩

/-- Modelled from the spec: the native engine's construct-filled
(`np.zeros`); it requires a concrete shape and rejects an absent one. -/
def zeros (shape : Option (List Nat)) (dt : Option DType) : Except Err NDArray :=
  let _ := dt
  match shape with
  | none => .error .missingShape
  | some sh => .ok ⟨List.replicate sh.prod 0⟩

/-- Modelled from the spec: the native engine's construct-filled
(`np.ones`); it requires a concrete shape and rejects an absent one. -/
def ones (shape : Option (List Nat)) (dt : Option DType) : Except Err NDArray :=
  let _ := dt
  match shape with
  | none => .error .missingShape
  | some sh => .ok ⟨List.replicate sh.prod 1⟩

end np

namespace blz

/-- Modelled from the spec: the compressed-chunked engine's
construct-from-value (`blz.barray`). -/
def barray (v : Val) (dt : Option DType) : BArray :=
  let _ := dt
  ⟨[v]⟩

/-- Modelled from the spec: the compressed-chunked engine's streaming
build-from-iterator (`blz.fromiter`): a negative `count` is the
"unbounded count" sentinel telling the engine not to assume a final
length, so it consumes the producer to exhaustion; a non-negative
`count` bounds consumption to that many elements. -/
def fromiter (g : List Val) (dt : Option DType) (count : Int) : BArray :=
  let _ := dt
  if count < 0 then ⟨g⟩ else ⟨g.take count.toNat⟩

/-- Modelled from the spec: the compressed-chunked engine's
construct-filled (`blz.zeros`); rejects an absent shape. -/
def zeros (shape : Option (List Nat)) (dt : Option DType) : Except Err BArray :=
  let _ := dt
  match shape with
  | none => .error .missingShape
  | some sh => .ok ⟨List.replicate sh.prod 0⟩

/-- Modelled from the spec: the compressed-chunked engine's
construct-filled (`blz.ones`); rejects an absent shape. -/
def ones (shape : Option (List Nat)) (dt : Option DType) : Except Err BArray :=
  let _ := dt
  match shape with
  | none => .error .missingShape
  | some sh => .ok ⟨List.replicate sh.prod 1⟩

end blz

/-- Modelled from the spec: the Data Descriptor abstraction from the
repository's `datadescriptor` module (absent from the analysed source).
`NumPyDataDescriptor` wraps a native buffer, `BLZDataDescriptor` a
compressed-chunked store, and `foreignDescriptor` stands for any other
pre-existing, opaque object satisfying the descriptor interface. -/
inductive DataDescriptor where
  | numPyDataDescriptor (a : NDArray)
  | blzDataDescriptor (b : BArray)
  | foreignDescriptor (id : Nat)
deriving DecidableEq, Repr

/-- Modelled from the spec: the Array Handle from the repository's
`array` module (absent from the analysed source) — a thin value owning
exactly one Data Descriptor. -/
structure Array where
  dd : DataDescriptor
deriving DecidableEq, Repr

/-- The kinds of object that can be passed to `array` — an existing Data
Descriptor, a numpy ndarray, a blz barray, a generator (modelled as the
finite sequence of elements it produces, consumed once when the model
traverses it), or any other value. These mirror the `isinstance` /
`inspect.isgenerator` probes of the source and are mutually exclusive. -/
inductive Obj where
  | descriptor (d : DataDescriptor)
  | ndarray (a : NDArray)
  | barray (b : BArray)
  | generator (g : List Val)
  | otherObj (v : Val)
deriving DecidableEq, Repr

/-- A capability dictionary, reduced to what the source observes of it:
whether the key `"efficient-write"` is present and whether the key
`"compress"` is present (the source only ever tests membership, never
the stored values). -/
structure Caps where
  efficientWrite : Bool
  compress : Bool
deriving DecidableEq, Repr

/-- The source's default capability argument `{'efficient-write': True}`. -/
def defaultCaps : Caps := ⟨true, false⟩

/-- The `dshape` argument as the source receives it: absent (`None`),
raw text to be parsed, or an already structured descriptor. -/
inductive DShapeArg where
  | noShape
  | text (s : String)
  | parsed (d : DShape)
deriving DecidableEq, Repr

/-- The line `dshape = dshape if not _is_str(dshape) else _dshape_builder(dshape)`
shared by `array`, `_fromiter`, `zeros` and `ones`: text is parsed (the
parser is the external `datashape.dshape` collaborator, passed in as
`parse`), anything else passes through. -/
def resolveDshape (parse : String → Except Err DShape) :
    DShapeArg → Except Err (Option DShape)
  | .noShape => .ok none
  | .text s => (parse s).map some
  | .parsed d => .ok (some d)

/-- Re-inject a resolved dshape as an argument (never text), as happens
when `array` passes its already-resolved `dshape` on to `_fromiter`. -/
def argOfResolved : Option DShape → DShapeArg
  | none => .noShape
  | some d => .parsed d

/-- `_fromiter(gen, dshape, caps)`: create an array out of an iterator.
Translated line by line from the source: resolve the dshape, then
`'efficient-write' in caps` selects `np.fromiter`, else
`'compress' in caps` selects `blz.fromiter(gen, dtype=dt, count=-1)`,
else `dd` is never assigned and `Array(dd)` raises. -/
def _fromiter (parse : String → Except Err DShape) (gen : List Val)
    (ds : DShapeArg) (caps : Caps) : Except Err Array := do
  let dshape ← resolveDshape parse ds
  if caps.efficientWrite then
    let dt := dshape.map to_dtype
    pure ⟨.numPyDataDescriptor (np.fromiter gen dt)⟩
  else if caps.compress then
    let dt := dshape.map to_dtype
    pure ⟨.blzDataDescriptor (blz.fromiter gen dt (-1))⟩
  else
    throw .unboundLocal

/-- `array(obj, dshape=None, caps={'efficient-write': True})`: the
capability resolver.  Translated line by line from the source: resolve
the dshape first, then the `isinstance` / `isgenerator` / capability
chain, first match winning. -/
def array (parse : String → Except Err DShape) (obj : Obj)
    (ds : DShapeArg) (caps : Caps) : Except Err Array := do
  let dshape ← resolveDshape parse ds
  match obj with
  | .descriptor d => pure ⟨d⟩
  | .ndarray a => pure ⟨.numPyDataDescriptor a⟩
  | .barray b => pure ⟨.blzDataDescriptor b⟩
  | .generator g => _fromiter parse g (argOfResolved dshape) caps
  | .otherObj v =>
    if caps.efficientWrite then
      let dt := dshape.map to_dtype
      pure ⟨.numPyDataDescriptor (np.array v dt)⟩
    else if caps.compress then
      let dt := dshape.map to_dtype
      pure ⟨.blzDataDescriptor (blz.barray v dt)⟩
    else
      throw .unsupportedInputKind

/-- The `shape, dt = (None,None) if dshape is None else to_numpy(dshape)`
line shared by both fill constructors. -/
def shapeAndDtype : Option DShape → Except Err (Option (List Nat) × Option DType)
  | none => .ok (none, none)
  | some d => (to_numpy d).map fun p => (some p.1, some p.2)

/-- `zeros(dshape, caps={'efficient-write': True})`: create an array and
fill it with zeros.  Translated line by line from the source. -/
def zeros (parse : String → Except Err DShape) (ds : DShapeArg)
    (caps : Caps) : Except Err Array := do
  let dshape ← resolveDshape parse ds
  if caps.efficientWrite then
    let (shape, dt) ← shapeAndDtype dshape
    let a ← np.zeros shape dt
    pure ⟨.numPyDataDescriptor a⟩
  else if caps.compress then
    let (shape, dt) ← shapeAndDtype dshape
    let b ← blz.zeros shape dt
    pure ⟨.blzDataDescriptor b⟩
  else
    throw .unboundLocal

/-- `ones(dshape, caps={'efficient-write': True})`: create an array and
fill it with ones.  Translated line by line from the source. -/
def ones (parse : String → Except Err DShape) (ds : DShapeArg)
    (caps : Caps) : Except Err Array := do
  let dshape ← resolveDshape parse ds
  if caps.efficientWrite then
    let (shape, dt) ← shapeAndDtype dshape
    let a ← np.ones shape dt
    pure ⟨.numPyDataDescriptor a⟩
  else if caps.compress then
    let (shape, dt) ← shapeAndDtype dshape
    let b ← blz.ones shape dt
    pure ⟨.blzDataDescriptor b⟩
  else
    throw .unboundLocal

/-- `open(uri)` (renamed: `open` is a Lean keyword): the reserved
open-from-URI entry point, which unconditionally raises. -/
def openFromUri (uri : String) : Except Err Array :=
  let _ := uri
  .error .notImplemented

/-! ## Dispatch branches of `array` -/

/-- The `isinstance(obj, IDataDescriptor)` probe. -/
def isDescriptor : Obj → Bool
  | .descriptor _ => true
  | _ => false

/-- The `isinstance(obj, np.ndarray)` probe. -/
def isNdarray : Obj → Bool
  | .ndarray _ => true
  | _ => false

/-- The `isinstance(obj, blz.barray)` probe. -/
def isBarray : Obj → Bool
  | .barray _ => true
  | _ => false

/-- The `inspect.isgenerator(obj)` probe. -/
def isGenerator : Obj → Bool
  | .generator _ => true
  | _ => false

/-- The seven branches of `array`'s `if`/`elif` chain, in source order. -/
inductive Branch where
  | wrapDescriptor
  | wrapNative
  | wrapForeign
  | delegateGenerator
  | coerceEffWrite
  | coerceCompress
  | noMatch
deriving DecidableEq, Repr

/-- Position of a branch in the source's `if`/`elif` chain. -/
def branchIdx : Branch → Nat
  | .wrapDescriptor => 0
  | .wrapNative => 1
  | .wrapForeign => 2
  | .delegateGenerator => 3
  | .coerceEffWrite => 4
  | .coerceCompress => 5
  | .noMatch => 6

/-- The raw guard of each branch, exactly as the source tests it
(`else` has guard `true`). -/
def branchCond (obj : Obj) (caps : Caps) : Branch → Bool
  | .wrapDescriptor => isDescriptor obj
  | .wrapNative => isNdarray obj
  | .wrapForeign => isBarray obj
  | .delegateGenerator => isGenerator obj
  | .coerceEffWrite => caps.efficientWrite
  | .coerceCompress => caps.compress
  | .noMatch => true

/-- The branch `array` takes: the first whose guard holds, mirroring
the source's `if`/`elif`/`else` chain. -/
def takenBranch (obj : Obj) (caps : Caps) : Branch :=
  if isDescriptor obj then .wrapDescriptor
  else if isNdarray obj then .wrapNative
  else if isBarray obj then .wrapForeign
  else if isGenerator obj then .delegateGenerator
  else if caps.efficientWrite then .coerceEffWrite
  else if caps.compress then .coerceCompress
  else .noMatch

/-- `b` is the first branch whose guard holds: its own guard is true and
every earlier guard is false. -/
def firstMatchAt (obj : Obj) (caps : Caps) (b : Branch) : Prop :=
  branchCond obj caps b = true ∧
    ∀ b', branchIdx b' < branchIdx b → branchCond obj caps b' = false

/-- What each branch produces, per the dispatch contract: branches 1–3
wrap the input in the corresponding descriptor variant, branch 4
delegates to the iterator-consuming constructor, branches 5–6 coerce
into the selected backend, branch 7 fails. -/
def branchOutcome (parse : String → Except Err DShape) (obj : Obj)
    (ds : DShapeArg) (caps : Caps) (dsh : Option DShape) : Branch → Prop
  | .wrapDescriptor => ∃ d, obj = .descriptor d ∧
      array parse obj ds caps = .ok ⟨d⟩
  | .wrapNative => ∃ a, obj = .ndarray a ∧
      array parse obj ds caps = .ok ⟨.numPyDataDescriptor a⟩
  | .wrapForeign => ∃ b, obj = .barray b ∧
      array parse obj ds caps = .ok ⟨.blzDataDescriptor b⟩
  | .delegateGenerator => ∃ g, obj = .generator g ∧
      array parse obj ds caps = _fromiter parse g (argOfResolved dsh) caps
  | .coerceEffWrite => ∃ a,
      array parse obj ds caps = .ok ⟨.numPyDataDescriptor a⟩
  | .coerceCompress => ∃ b,
      array parse obj ds caps = .ok ⟨.blzDataDescriptor b⟩
  | .noMatch => array parse obj ds caps = .error .unsupportedInputKind

theorem branchIdx_injective : ∀ b1 b2 : Branch, branchIdx b1 = branchIdx b2 → b1 = b2 := by
  intro b1 b2 h
  cases b1 <;> cases b2 <;> simp_all [branchIdx]

theorem firstMatchAt_takenBranch (obj : Obj) (caps : Caps) :
    firstMatchAt obj caps (takenBranch obj caps) := by
  obtain ⟨ew, cp⟩ := caps
  cases obj <;> cases ew <;> cases cp <;>
    refine ⟨by simp [takenBranch, branchCond, isDescriptor, isNdarray, isBarray, isGenerator], ?_⟩ <;>
    (intro b' hb'; cases b' <;>
      simp_all [takenBranch, branchIdx, branchCond, isDescriptor, isNdarray, isBarray, isGenerator])

theorem firstMatchAt_unique (obj : Obj) (caps : Caps) (b1 b2 : Branch)
    (h1 : firstMatchAt obj caps b1) (h2 : firstMatchAt obj caps b2) : b1 = b2 := by
  rcases Nat.lt_trichotomy (branchIdx b1) (branchIdx b2) with hlt | heq | hgt
  · exact absurd h1.1 (by simp [h2.2 b1 hlt])
  · exact branchIdx_injective _ _ heq
  · exact absurd h2.1 (by simp [h1.2 b2 hgt])

theorem resolveDshape_argOfResolved (parse : String → Except Err DShape)
    (dsh : Option DShape) :
    resolveDshape parse (argOfResolved dsh) = .ok dsh := by
  cases dsh <;> rfl

theorem branchOutcome_takenBranch (parse : String → Except Err DShape)
    (obj : Obj) (ds : DShapeArg) (caps : Caps) (dsh : Option DShape)
    (h : resolveDshape parse ds = .ok dsh) :
    branchOutcome parse obj ds caps dsh (takenBranch obj caps) := by
  obtain ⟨ew, cp⟩ := caps
  cases obj <;> cases ew <;> cases cp <;>
    simp_all [takenBranch, branchOutcome, array, isDescriptor, isNdarray, isBarray,
      isGenerator, bind, Except.bind, pure, Except.pure, throw, throwThe,
      MonadExceptOf.throw]

/-- A concrete shape/type parser used only to instantiate theorems at
closed inputs: it accepts the literal text "int64" and rejects
everything else with a parse error carrying the offending text. -/
def sampleParse : String → Except Err DShape := fun s =>
  if s = "int64" then .ok ⟨[], .int64⟩ else .error (.parseError s)

/-! ## Claims -/

/-- C1: `construct(obj, dshape?, caps)` dispatches on `obj` by first
match in the fixed order descriptor / native array / foreign
compressed-chunked array / generator (delegated to the
iterator-consuming constructor) / efficient-write / compress / failure;
for every input exactly one branch is taken, and that branch determines
the descriptor variant of the returned handle. -/
theorem array_dispatch_first_match (parse : String → Except Err DShape)
    (obj : Obj) (ds : DShapeArg) (caps : Caps) (dsh : Option DShape)
    (h : resolveDshape parse ds = .ok dsh) :
    (∃! b, firstMatchAt obj caps b) ∧
      firstMatchAt obj caps (takenBranch obj caps) ∧
      branchOutcome parse obj ds caps dsh (takenBranch obj caps) :=
  ⟨⟨takenBranch obj caps, firstMatchAt_takenBranch obj caps,
      fun b hb => firstMatchAt_unique obj caps b _ hb (firstMatchAt_takenBranch obj caps)⟩,
    firstMatchAt_takenBranch obj caps,
    branchOutcome_takenBranch parse obj ds caps dsh h⟩

theorem array_dispatch_first_match_witness :
    resolveDshape sampleParse .noShape = .ok none ∧
      ((∃! b, firstMatchAt (.otherObj 42) defaultCaps b) ∧
        firstMatchAt (.otherObj 42) defaultCaps (takenBranch (.otherObj 42) defaultCaps) ∧
        branchOutcome sampleParse (.otherObj 42) .noShape defaultCaps none
          (takenBranch (.otherObj 42) defaultCaps)) :=
  ⟨rfl, array_dispatch_first_match sampleParse (.otherObj 42) .noShape defaultCaps none rfl⟩

/-- C2: for every object `d` already satisfying the Data Descriptor
interface and every capability set, `construct(d, dshape?, caps)`
returns a handle wrapping `d` itself, unchanged, regardless of `caps`
(assuming the dshape argument itself resolves, cf. C10). -/
theorem array_descriptor_passthrough (parse : String → Except Err DShape)
    (d : DataDescriptor) (ds : DShapeArg) (caps : Caps) (dsh : Option DShape)
    (h : resolveDshape parse ds = .ok dsh) :
    array parse (.descriptor d) ds caps = .ok ⟨d⟩ := by
  simp [array, h, bind, Except.bind, pure, Except.pure]

theorem array_descriptor_passthrough_witness :
    resolveDshape sampleParse .noShape = .ok none ∧
      array sampleParse (.descriptor (.foreignDescriptor 7)) .noShape ⟨false, false⟩ =
        .ok ⟨.foreignDescriptor 7⟩ :=
  ⟨rfl, array_descriptor_passthrough sampleParse (.foreignDescriptor 7) .noShape
    ⟨false, false⟩ none rfl⟩

/-- C3: for every finite generator `g`, construction with a capability
set containing efficient-write materialises the whole produced sequence
into a native buffer: the result is a native-buffer handle whose
contents are exactly the elements `g` produced (so its length equals
the number of elements produced; the generator, modelled as the
sequence it yields, is consumed in a single full traversal). -/
theorem array_generator_efficient_write (parse : String → Except Err DShape)
    (g : List Val) (ds : DShapeArg) (caps : Caps) (dsh : Option DShape)
    (h : resolveDshape parse ds = .ok dsh) (hew : caps.efficientWrite = true) :
    ∃ a : NDArray, array parse (.generator g) ds caps = .ok ⟨.numPyDataDescriptor a⟩ ∧
      a.data = g ∧ a.data.length = g.length := by
  refine ⟨np.fromiter g (dsh.map to_dtype), ?_, rfl, rfl⟩
  simp [array, h, _fromiter, resolveDshape_argOfResolved, hew,
    bind, Except.bind, pure, Except.pure]

theorem array_generator_efficient_write_witness :
    resolveDshape sampleParse .noShape = .ok none ∧ defaultCaps.efficientWrite = true ∧
      ∃ a : NDArray,
        array sampleParse (.generator [3, 1, 4]) .noShape defaultCaps =
          .ok ⟨.numPyDataDescriptor a⟩ ∧
        a.data = [3, 1, 4] ∧ a.data.length = ([3, 1, 4] : List Val).length :=
  ⟨rfl, rfl, array_generator_efficient_write sampleParse [3, 1, 4] .noShape
    defaultCaps none rfl rfl⟩

/-- C4: for every generator `g`, when the capability set contains
compress but not efficient-write, construction streams `g` into the
compressed-chunked engine's build-from-iterator primitive with the
explicit unbounded-count sentinel `-1`, and the resulting
compressed-chunked handle's contents equal the sequence `g` produced,
in order. -/
theorem array_generator_compress (parse : String → Except Err DShape)
    (g : List Val) (ds : DShapeArg) (caps : Caps) (dsh : Option DShape)
    (h : resolveDshape parse ds = .ok dsh) (hew : caps.efficientWrite = false)
    (hc : caps.compress = true) :
    array parse (.generator g) ds caps =
      .ok ⟨.blzDataDescriptor (blz.fromiter g (dsh.map to_dtype) (-1))⟩ ∧
      (blz.fromiter g (dsh.map to_dtype) (-1)).data = g := by
  constructor
  · simp [array, h, _fromiter, resolveDshape_argOfResolved, hew, hc,
      bind, Except.bind, pure, Except.pure]
  · simp [blz.fromiter]

theorem array_generator_compress_witness :
    resolveDshape sampleParse .noShape = .ok none ∧
      (Caps.mk false true).efficientWrite = false ∧ (Caps.mk false true).compress = true ∧
      (array sampleParse (.generator [5, 9]) .noShape ⟨false, true⟩ =
          .ok ⟨.blzDataDescriptor (blz.fromiter [5, 9] ((none : Option DShape).map to_dtype) (-1))⟩ ∧
        (blz.fromiter [5, 9] ((none : Option DShape).map to_dtype) (-1)).data = [5, 9]) :=
  ⟨rfl, rfl, rfl, array_generator_compress sampleParse [5, 9] .noShape
    ⟨false, true⟩ none rfl rfl rfl⟩

/-- C5: `zeros(None)` and `ones(None)` fail with the missing-shape
error: with the shape/type descriptor absent, whichever backend the
capability set selects rejects the absent shape, and no Array Handle is
returned. -/
theorem zeros_ones_missing_shape (parse : String → Except Err DShape) (caps : Caps)
    (h : caps.efficientWrite = true ∨ caps.compress = true) :
    zeros parse .noShape caps = .error .missingShape ∧
      ones parse .noShape caps = .error .missingShape := by
  obtain ⟨ew, cp⟩ := caps
  cases ew <;> cases cp <;>
    simp_all [zeros, ones, resolveDshape, shapeAndDtype, np.zeros, blz.zeros,
      np.ones, blz.ones, bind, Except.bind, pure, Except.pure]

theorem zeros_ones_missing_shape_witness :
    (defaultCaps.efficientWrite = true ∨ defaultCaps.compress = true) ∧
      (zeros sampleParse .noShape defaultCaps = .error .missingShape ∧
        ones sampleParse .noShape defaultCaps = .error .missingShape) :=
  ⟨Or.inl rfl, zeros_ones_missing_shape sampleParse defaultCaps (Or.inl rfl)⟩

/-- C6: for every object that is neither a Data Descriptor, a native
array, a foreign compressed-chunked array, nor a generator, if the
capability set contains neither efficient-write nor compress,
`construct` fails with the unsupported-input-kind error and returns no
Array Handle. -/
theorem array_unrecognized_fails (parse : String → Except Err DShape)
    (v : Val) (ds : DShapeArg) (caps : Caps) (dsh : Option DShape)
    (h : resolveDshape parse ds = .ok dsh)
    (hew : caps.efficientWrite = false) (hc : caps.compress = false) :
    array parse (.otherObj v) ds caps = .error .unsupportedInputKind ∧
      ∀ hnd : Array, array parse (.otherObj v) ds caps ≠ .ok hnd := by
  have he : array parse (.otherObj v) ds caps = .error .unsupportedInputKind := by
    simp [array, h, hew, hc, bind, Except.bind, throw, throwThe, MonadExceptOf.throw]
  exact ⟨he, fun hnd hok => by simp [he] at hok⟩

theorem array_unrecognized_fails_witness :
    resolveDshape sampleParse .noShape = .ok none ∧
      (Caps.mk false false).efficientWrite = false ∧
      (Caps.mk false false).compress = false ∧
      (array sampleParse (.otherObj 0) .noShape ⟨false, false⟩ =
          .error .unsupportedInputKind ∧
        ∀ hnd : Array, array sampleParse (.otherObj 0) .noShape ⟨false, false⟩ ≠ .ok hnd) :=
  ⟨rfl, rfl, rfl,
    array_unrecognized_fails sampleParse 0 .noShape ⟨false, false⟩ none rfl rfl rfl⟩

/-- C7: for every generator and every capability set containing neither
efficient-write nor compress, the iterator-consuming constructor falls
through both capability branches without constructing a backing store:
the local `dd` is never assigned, `Array(dd)` raises, and no Array
Handle is returned — both when `_fromiter` is called directly and when
reached through `construct`. -/
theorem fromiter_no_capability_fails (parse : String → Except Err DShape)
    (g : List Val) (ds : DShapeArg) (caps : Caps) (dsh : Option DShape)
    (h : resolveDshape parse ds = .ok dsh)
    (hew : caps.efficientWrite = false) (hc : caps.compress = false) :
    _fromiter parse g ds caps = .error .unboundLocal ∧
      array parse (.generator g) ds caps = .error .unboundLocal ∧
      ∀ hnd : Array, array parse (.generator g) ds caps ≠ .ok hnd := by
  have h1 : _fromiter parse g ds caps = .error .unboundLocal := by
    simp [_fromiter, h, hew, hc, bind, Except.bind, throw, throwThe, MonadExceptOf.throw]
  have h2 : array parse (.generator g) ds caps = .error .unboundLocal := by
    simp [array, h, _fromiter, resolveDshape_argOfResolved, hew, hc,
      bind, Except.bind, throw, throwThe, MonadExceptOf.throw]
  exact ⟨h1, h2, fun hnd hok => by simp [h2] at hok⟩

theorem fromiter_no_capability_fails_witness :
    resolveDshape sampleParse .noShape = .ok none ∧
      (Caps.mk false false).efficientWrite = false ∧
      (Caps.mk false false).compress = false ∧
      (_fromiter sampleParse [2, 7] .noShape ⟨false, false⟩ = .error .unboundLocal ∧
        array sampleParse (.generator [2, 7]) .noShape ⟨false, false⟩ =
          .error .unboundLocal ∧
        ∀ hnd : Array,
          array sampleParse (.generator [2, 7]) .noShape ⟨false, false⟩ ≠ .ok hnd) :=
  ⟨rfl, rfl, rfl,
    fromiter_no_capability_fails sampleParse [2, 7] .noShape ⟨false, false⟩ none rfl rfl rfl⟩

/-- C8: in every entry point that branches on capabilities — the
coercion branches of `construct`, the iterator-consuming constructor,
`zeros` and `ones` — when the capability set contains both
efficient-write and compress, efficient-write wins: any handle returned
wraps a native-buffer descriptor, never a compressed-chunked one. -/
theorem efficient_write_priority (parse : String → Except Err DShape)
    (v : Val) (g : List Val) (ds : DShapeArg) (caps : Caps)
    (hew : caps.efficientWrite = true) (hc : caps.compress = true) :
    (∀ hnd : Array, array parse (.otherObj v) ds caps = .ok hnd →
        ∃ a, hnd.dd = .numPyDataDescriptor a) ∧
      (∀ hnd : Array, _fromiter parse g ds caps = .ok hnd →
        ∃ a, hnd.dd = .numPyDataDescriptor a) ∧
      (∀ hnd : Array, zeros parse ds caps = .ok hnd →
        ∃ a, hnd.dd = .numPyDataDescriptor a) ∧
      (∀ hnd : Array, ones parse ds caps = .ok hnd →
        ∃ a, hnd.dd = .numPyDataDescriptor a) := by
  have hcaps : caps = ⟨true, true⟩ := by
    obtain ⟨ew, cp⟩ := caps; simp_all
  subst hcaps
  cases hr : resolveDshape parse ds with
  | error e =>
    refine ⟨?_, ?_, ?_, ?_⟩ <;> intro hnd hok <;>
      simp [array, _fromiter, zeros, ones, hr, bind, Except.bind] at hok
  | ok dsh =>
    refine ⟨?_, ?_, ?_, ?_⟩ <;> intro hnd hok
    · simp [array, hr, bind, Except.bind, pure, Except.pure] at hok
      subst hok; exact ⟨_, rfl⟩
    · simp [_fromiter, hr, bind, Except.bind, pure, Except.pure] at hok
      subst hok; exact ⟨_, rfl⟩
    · cases hsd : shapeAndDtype dsh with
      | error e => simp [zeros, hr, hsd, bind, Except.bind] at hok
      | ok p =>
        cases hz : np.zeros p.1 p.2 with
        | error e => simp [zeros, hr, hsd, hz, bind, Except.bind] at hok
        | ok a =>
          simp [zeros, hr, hsd, hz, bind, Except.bind, pure, Except.pure] at hok
          subst hok; exact ⟨a, rfl⟩
    · cases hsd : shapeAndDtype dsh with
      | error e => simp [ones, hr, hsd, bind, Except.bind] at hok
      | ok p =>
        cases hz : np.ones p.1 p.2 with
        | error e => simp [ones, hr, hsd, hz, bind, Except.bind] at hok
        | ok a =>
          simp [ones, hr, hsd, hz, bind, Except.bind, pure, Except.pure] at hok
          subst hok; exact ⟨a, rfl⟩

theorem efficient_write_priority_witness :
    (Caps.mk true true).efficientWrite = true ∧ (Caps.mk true true).compress = true ∧
      ((∀ hnd : Array,
          array sampleParse (.otherObj 1) (.parsed ⟨[some 2], .int64⟩) ⟨true, true⟩ =
            .ok hnd → ∃ a, hnd.dd = .numPyDataDescriptor a) ∧
        (∀ hnd : Array,
          _fromiter sampleParse [1, 2] (.parsed ⟨[some 2], .int64⟩) ⟨true, true⟩ =
            .ok hnd → ∃ a, hnd.dd = .numPyDataDescriptor a) ∧
        (∀ hnd : Array,
          zeros sampleParse (.parsed ⟨[some 2], .int64⟩) ⟨true, true⟩ =
            .ok hnd → ∃ a, hnd.dd = .numPyDataDescriptor a) ∧
        (∀ hnd : Array,
          ones sampleParse (.parsed ⟨[some 2], .int64⟩) ⟨true, true⟩ =
            .ok hnd → ∃ a, hnd.dd = .numPyDataDescriptor a)) :=
  ⟨rfl, rfl,
    efficient_write_priority sampleParse 1 [1, 2] (.parsed ⟨[some 2], .int64⟩)
      ⟨true, true⟩ rfl rfl⟩

/-- C9: `openFromUri` fails with the not-implemented error on every
input, never returns an Array Handle, and never inspects its argument
(its result is the same for any two URIs). -/
theorem openFromUri_not_implemented :
    ∀ uri : String, openFromUri uri = .error .notImplemented ∧
      (∀ hnd : Array, openFromUri uri ≠ .ok hnd) ∧
      ∀ uri2 : String, openFromUri uri = openFromUri uri2 :=
  fun _ => ⟨rfl, fun _ h => by simp [openFromUri] at h, fun _ => rfl⟩

/-- C10: `construct` parses a textual dshape argument before
dispatching on `obj`, so for every object — including one already
satisfying the Data Descriptor interface — malformed dshape text makes
the call fail with the parser's own error instead of returning a
handle. -/
theorem array_parses_dshape_before_dispatch (parse : String → Except Err DShape)
    (s : String) (e : Err) (hp : parse s = .error e) (obj : Obj) (caps : Caps) :
    array parse obj (.text s) caps = .error e ∧
      ∀ hnd : Array, array parse obj (.text s) caps ≠ .ok hnd := by
  have he : array parse obj (.text s) caps = .error e := by
    simp [array, resolveDshape, hp, Except.map, bind, Except.bind]
  exact ⟨he, fun hnd hok => by simp [he] at hok⟩

theorem array_parses_dshape_before_dispatch_witness :
    sampleParse "bogus" = .error (.parseError "bogus") ∧
      (array sampleParse (.descriptor (.foreignDescriptor 3)) (.text "bogus") defaultCaps =
          .error (.parseError "bogus") ∧
        ∀ hnd : Array,
          array sampleParse (.descriptor (.foreignDescriptor 3)) (.text "bogus") defaultCaps ≠
            .ok hnd) :=
  ⟨rfl, array_parses_dshape_before_dispatch sampleParse "bogus" (.parseError "bogus") rfl
    (.descriptor (.foreignDescriptor 3)) defaultCaps⟩

end Blaze
